import Mathlib

/-!
Verification development for the film-script processing application
(`src/app.py`).  The Python source is shallowly embedded below: pure
functions become Lean functions, dictionary-shaped JSON data becomes an
inductive `JsonVal`, the external LLM reply is an explicit `String`
input, and the two external document decoders (PyPDF2, python-docx) are
explicit `Except` inputs.  Theorems about the claims follow the
definitions.
-/

/-- JSON values as produced by the Python `json` module.  Numbers are
modelled as integers: every numeric literal occurring in the
application data (page numbers, scene numbers, counts) is an integer,
and no claim involves fractional or exponent literals, which this model
rejects. -/
inductive JsonVal where
  | null : JsonVal
  | bool : Bool → JsonVal
  | num : Int → JsonVal
  | str : String → JsonVal
  | arr : List JsonVal → JsonVal
  | obj : List (String × JsonVal) → JsonVal

/-- JSON whitespace characters accepted between tokens by `json.loads`. -/
def skipWs : List Char → List Char
  | [] => []
  | c :: cs => if c = ' ' || c = '\t' || c = '\n' || c = '\r' then skipWs cs else c :: cs

/-- Escape sequences accepted inside JSON string literals (the `\uXXXX`
form is not modelled; no claim exercises it). -/
def escChar (e : Char) : Option Char :=
  if e = '"' then some '"'
  else if e = '\\' then some '\\'
  else if e = '/' then some '/'
  else if e = 'n' then some '\n'
  else if e = 't' then some '\t'
  else if e = 'r' then some '\r'
  else if e = 'b' then some (Char.ofNat 8)
  else if e = 'f' then some (Char.ofNat 12)
  else none

/-- Parses the body of a JSON string literal, after the opening quote.
Returns the decoded characters and the input remaining after the
closing quote. -/
def parseStringBody : List Char → Option (List Char × List Char)
  | [] => none
  | '"' :: cs => some ([], cs)
  | '\\' :: [] => none
  | '\\' :: e :: cs =>
    match escChar e with
    | some ch =>
      match parseStringBody cs with
      | some (s, r) => some (ch :: s, r)
      | none => none
    | none => none
  | c :: cs =>
    match parseStringBody cs with
    | some (s, r) => some (c :: s, r)
    | none => none

/-- Digit run to a natural number. -/
def digitsVal (ds : List Char) : Nat :=
  ds.foldl (fun a c => a * 10 + (c.toNat - 48)) 0

/-- Parses a JSON integer literal (optional minus sign, then digits).
Fractional and exponent forms are rejected by this model, and the
leading-zero restriction of the JSON grammar is not enforced; neither
case is exercised by any claim. -/
def parseNumber (cs : List Char) : Option (JsonVal × List Char) :=
  let p := match cs with
    | '-' :: r => (true, r)
    | _ => (false, cs)
  let ds := p.2.takeWhile Char.isDigit
  let rest := p.2.dropWhile Char.isDigit
  if ds.isEmpty then none
  else match rest with
    | '.' :: _ => none
    | 'e' :: _ => none
    | 'E' :: _ => none
    | _ => some (JsonVal.num (if p.1 then -(digitsVal ds : Int) else (digitsVal ds : Int)), rest)

/-- Consumes an expected literal character sequence. -/
def expectLit (lit : List Char) (cs : List Char) : Option (List Char) :=
  if lit.isPrefixOf cs then some (cs.drop lit.length) else none

/-- Parsing mode of the single fuel-indexed JSON parsing function: a
value, the members of an object, or the items of an array. -/
inductive PMode where
  | val : PMode
  | members : PMode
  | items : PMode

/-- Result of one parsing step, matching the mode. -/
inductive PRes where
  | val : JsonVal → PRes
  | members : List (String × JsonVal) → PRes
  | items : List JsonVal → PRes

/-- Recursive descent over the character list, structurally recursive on
fuel so that it evaluates inside the kernel.  Follows the grammar
accepted by `json.loads` on the integer fragment described above. -/
def parseStep : Nat → PMode → List Char → Option (PRes × List Char)
  | 0, _, _ => none
  | Nat.succ fuel, PMode.val, cs =>
    (match skipWs cs with
     | [] => none
     | c :: rest =>
       if c = '"' then
         match parseStringBody rest with
         | some (s, r) => some (PRes.val (JsonVal.str (String.mk s)), r)
         | none => none
       else if c = '\x7b' then
         match skipWs rest with
         | '\x7d' :: r => some (PRes.val (JsonVal.obj []), r)
         | cs2 =>
           match parseStep fuel PMode.members cs2 with
           | some (PRes.members kvs, r) => some (PRes.val (JsonVal.obj kvs), r)
           | _ => none
       else if c = '[' then
         match skipWs rest with
         | ']' :: r => some (PRes.val (JsonVal.arr []), r)
         | cs2 =>
           match parseStep fuel PMode.items cs2 with
           | some (PRes.items xs, r) => some (PRes.val (JsonVal.arr xs), r)
           | _ => none
       else if c = 't' then
         (expectLit ['r', 'u', 'e'] rest).map (fun r => (PRes.val (JsonVal.bool true), r))
       else if c = 'f' then
         (expectLit ['a', 'l', 's', 'e'] rest).map (fun r => (PRes.val (JsonVal.bool false), r))
       else if c = 'n' then
         (expectLit ['u', 'l', 'l'] rest).map (fun r => (PRes.val JsonVal.null, r))
       else
         (parseNumber (c :: rest)).map (fun p => (PRes.val p.1, p.2)))
  | Nat.succ fuel, PMode.members, cs =>
    (match skipWs cs with
     | '"' :: rest =>
       (match parseStringBody rest with
        | some (k, r1) =>
          (match skipWs r1 with
           | ':' :: r2 =>
             (match parseStep fuel PMode.val r2 with
              | some (PRes.val v, r3) =>
                (match skipWs r3 with
                 | ',' :: r4 =>
                   (match parseStep fuel PMode.members r4 with
                    | some (PRes.members kvs, r5) =>
                      some (PRes.members ((String.mk k, v) :: kvs), r5)
                    | _ => none)
                 | '\x7d' :: r4 => some (PRes.members [(String.mk k, v)], r4)
                 | _ => none)
              | _ => none)
           | _ => none)
        | none => none)
     | _ => none)
  | Nat.succ fuel, PMode.items, cs =>
    (match parseStep fuel PMode.val cs with
     | some (PRes.val v, r) =>
       (match skipWs r with
        | ',' :: r2 =>
          (match parseStep fuel PMode.items r2 with
           | some (PRes.items xs, r3) => some (PRes.items (v :: xs), r3)
           | _ => none)
        | ']' :: r2 => some (PRes.items [v], r2)
        | _ => none)
     | _ => none)

/-- Model of `json.loads`: parse one JSON value, allow surrounding
whitespace, reject any trailing data.  Returns `none` exactly where the
Python call raises `json.JSONDecodeError` (on the modelled fragment). -/
def jsonDecode (s : String) : Option JsonVal :=
  match parseStep (s.length + 1) PMode.val s.data with
  | some (PRes.val v, rest) => if skipWs rest = [] then some v else none
  | _ => none

/-- First value bound to a key in an association list, mirroring lookup
in a Python dict (whose keys are unique). -/
def lookupKey (kvs : List (String × JsonVal)) (k : String) : Option JsonVal :=
  (kvs.find? (fun kv => kv.1 == k)).map (fun kv => kv.2)

/-- Stands for the `str(e)` message of the `json.JSONDecodeError` that
`json.loads` raises on invalid input; the exact wording of the Python
message is opaque to this model and never relied on. -/
def json_error_message : String := "JSONDecodeError"

/-- The dictionary `analyze_for_standards` / `analyze_for_production`
return when the reply fails to decode (app.py lines 257-258, 293-294):
`\x7b"error": str(e)\x7d`. -/
def json_error_object : List (String × JsonVal) :=
  [("error", JsonVal.str json_error_message)]

/-- The response-parsing step shared by `analyze_for_standards`
(app.py line 255) and `analyze_for_production` (line 291): the reply
text is passed to `json.loads`; the surrounding `try` turns any
decode exception into the error dictionary. -/
def parse_llm_reply (reply : String) : JsonVal :=
  match jsonDecode reply with
  | some v => v
  | none => JsonVal.obj json_error_object

/-- Membership test `"error" in results` used by the result tabs
(app.py lines 445, 507) on the parsed dictionary. -/
def hasErrorKey : JsonVal → Bool
  | JsonVal.obj kvs => (lookupKey kvs "error").isSome
  | _ => false

/-- What `tab_standards_results` renders from a parsed result
dictionary (app.py lines 444-449): the error banner when the `error`
key is present, otherwise the violations view over
`results.get("violations", [])`. -/
inductive StandardsView where
  | errorView : JsonVal → StandardsView
  | resultsView : JsonVal → StandardsView

/-- Branch taken by `tab_standards_results` on a result dictionary. -/
def tab_standards_view (results : List (String × JsonVal)) : StandardsView :=
  match lookupKey results "error" with
  | some e => StandardsView.errorView e
  | none => StandardsView.resultsView ((lookupKey results "violations").getD (JsonVal.arr []))

/-- Python string slicing `s[:n]` (by code points). -/
def pySlice (s : String) (n : Nat) : String := String.mk (s.data.take n)

/-- The standards prompt template (app.py lines 226-249) up to the
point where the truncated script text is interpolated.  Literal braces
of the Python `f`-string (written `\x7b\x7b` there) appear once here. -/
def standardsPromptHead : String :=
  "Analyze this script for content violations. Check for:\n" ++
  "                    - Excessive violence\n" ++
  "                    - Offensive language\n" ++
  "                    - Nudity/sexual content\n" ++
  "                    - Drug use\n" ++
  "                    - Copyright issues\n" ++
  "                    Return JSON with violations found:\n" ++
  "                    \x7b\n" ++
  "                        \"violations\": [\n" ++
  "                            \x7b\n" ++
  "                                \"violationType\": \"violence\",\n" ++
  "                                \"severity\": \"high\",\n" ++
  "                                \"violationText\": \"excerpt from script\",\n" ++
  "                                \"explanation\": \"why it violates standards\",\n" ++
  "                                \"suggestedAction\": \"how to fix\",\n" ++
  "                                \"pageNumber\": 1\n" ++
  "                            \x7d\n" ++
  "                        ],\n" ++
  "                        \"summary\": \x7b\n" ++
  "                            \"totalPages\": 10,\n" ++
  "                            \"successRate\": \"100%\"\n" ++
  "                        \x7d\n" ++
  "                    \x7d\n" ++
  "                    Script: "

/-- The user-role prompt built by `analyze_for_standards`: template,
then `text[:10000]`, then the literal trailing dots. -/
def standards_user_prompt (text : String) : String :=
  standardsPromptHead ++ pySlice text 10000 ++ "..."

/-- The production prompt template (app.py lines 267-285) up to the
interpolation point. -/
def productionPromptHead : String :=
  "Extract production elements from this script. Return JSON with:\n" ++
  "                    \x7b\n" ++
  "                        \"location_breakdown\": [\n" ++
  "                            \x7b\n" ++
  "                                \"location_name\": \"Office\",\n" ++
  "                                \"scenes_in_location\": [\n" ++
  "                                    \x7b\n" ++
  "                                        \"scene_number\": 1,\n" ++
  "                                        \"scene_heading\": \"INT. OFFICE - DAY\",\n" ++
  "                                        \"time_of_day\": \"DAY\",\n" ++
  "                                        \"brief_description\": \"Character enters office\",\n" ++
  "                                        \"props_in_scene\": [\"desk\", \"chair\"]\n" ++
  "                                    \x7d\n" ++
  "                                ]\n" ++
  "                            \x7d\n" ++
  "                        ],\n" ++
  "                        \"unique_props\": [\"desk\", \"chair\"]\n" ++
  "                    \x7d\n" ++
  "                    Script: "

/-- The user-role prompt built by `analyze_for_production`. -/
def production_user_prompt (text : String) : String :=
  productionPromptHead ++ pySlice text 10000 ++ "..."

/-- Outcome of the analysis block of `tab_upload_script` (app.py lines
419-428) once text extraction has succeeded.  The `emptyTextError`
constructor expresses the outcome the specification expects for empty
extracted text; the code below never produces it, because the source
has no branch inspecting the extracted text. -/
inductive UploadOutcome where
  | emptyTextError : UploadOutcome
  | analyzed : String → JsonVal → String → JsonVal → UploadOutcome

/-- The analysis block of `tab_upload_script`: with the extracted text
in hand, the code unconditionally builds both prompts, performs both
LLM calls (their replies are the `replyS`/`replyP` inputs here), and
stores both parsed results in session state. -/
def tab_upload_process (text replyS replyP : String) : UploadOutcome :=
  UploadOutcome.analyzed (standards_user_prompt text) (parse_llm_reply replyS)
    (production_user_prompt text) (parse_llm_reply replyP)

/-- Index of the last dot in the character list, if any. -/
def lastDotIndex (cs : List Char) : Option Nat :=
  cs.enum.foldl (fun acc p => if p.2 = '.' then some p.1 else acc) none

/-- Extension part of `os.path.splitext(filename)` for the uploaded
names handled here (which carry no directory separator): the suffix
from the last dot, except that a name whose characters before that dot
are all dots has no extension. -/
def splitextExt (p : String) : String :=
  match lastDotIndex p.data with
  | none => ""
  | some d =>
    if (p.data.take d).any (fun c => c != '.') then String.mk (p.data.drop d) else ""

/-- Python `str.lower` (ASCII case suffices for the extensions involved). -/
def pyLower (s : String) : String := String.mk (s.data.map Char.toLower)

/-- Behaviour of the two external document libraries for one uploaded
file: either the page texts PyPDF2 extracts, or the message of the
exception it raises, and likewise the paragraph texts of python-docx. -/
structure FileBackends where
  pdfPages : Except String (List String)
  docxParas : Except String (List String)

/-- Errors `extract_text_from_file` can raise: the `ValueError` for an
unsupported extension (app.py line 217) and the generic `Exception`
into which the decoders wrap their internal failures (lines 195, 206). -/
inductive ExtractErr where
  | unsupported : String → ExtractErr
  | wrapped : String → ExtractErr
deriving DecidableEq

/-- `FilmScriptProcessor.extract_text_from_pdf` (app.py lines 185-195):
concatenates each page text followed by a newline; any exception from
PyPDF2 is re-raised as `Exception("Error reading PDF: " + str(e))`. -/
def extract_text_from_pdf (pages : Except String (List String)) : Except ExtractErr String :=
  match pages with
  | Except.ok ps => Except.ok (ps.foldl (fun acc p => acc ++ p ++ "\n") "")
  | Except.error e => Except.error (ExtractErr.wrapped ("Error reading PDF: " ++ e))

/-- `FilmScriptProcessor.extract_text_from_docx` (app.py lines 197-206):
same shape over paragraphs, wrapping as `"Error reading DOCX: ..."`. -/
def extract_text_from_docx (paras : Except String (List String)) : Except ExtractErr String :=
  match paras with
  | Except.ok ps => Except.ok (ps.foldl (fun acc p => acc ++ p ++ "\n") "")
  | Except.error e => Except.error (ExtractErr.wrapped ("Error reading DOCX: " ++ e))

/-- `FilmScriptProcessor.extract_text_from_file` (app.py lines 208-217):
dispatch on the lowercased extension; `.pdf` and `.docx`/`.doc` are the
only supported cases, everything else raises
`ValueError("Unsupported file type: " + ext)`. -/
def extract_text_from_file (b : FileBackends) (filename : String) : Except ExtractErr String :=
  let ext := pyLower (splitextExt filename)
  if ext = ".pdf" then extract_text_from_pdf b.pdfPages
  else if ext = ".docx" ∨ ext = ".doc" then extract_text_from_docx b.docxParas
  else Except.error (ExtractErr.unsupported ("Unsupported file type: " ++ ext))

/-- True on an `ok` result. -/
def exceptIsOk : Except ExtractErr String → Bool
  | Except.ok _ => true
  | Except.error _ => false

/-- Python whitespace stripped by `str.strip`. -/
def isPySpace (c : Char) : Bool :=
  c = ' ' || c = '\t' || c = '\n' || c = '\r' || c = '\x0b' || c = '\x0c'

/-- Python `str.strip()`. -/
def pyStrip (s : String) : String :=
  String.mk (((s.data.dropWhile isPySpace).reverse.dropWhile isPySpace).reverse)

/-- Python `str.endswith`. -/
def pyEndswith (s suffixStr : String) : Bool :=
  suffixStr.data.isSuffixOf s.data

/-- The domain allow-list of `check_email_domain` (app.py line 127). -/
def authorized_domains : List String := ["@hoichoi.tv", "@gmail.com", "@example.com"]

/-- `check_email_domain` (app.py lines 125-128). -/
def check_email_domain (email : String) : Bool :=
  authorized_domains.any (fun d => pyEndswith (pyStrip (pyLower email)) d)

/-- The Streamlit session keys the login handler writes (app.py lines
156-159); `none` models a key absent from `st.session_state`. -/
structure SessionState where
  authenticated : Bool
  user_email : Option String
  user_name : Option String
  is_admin : Option Bool
deriving DecidableEq

/-- Characters before the first `@`, as in `email.split("@")[0]`. -/
def takeBeforeAt (email : String) : String :=
  String.mk (email.data.takeWhile (fun c => c != '@'))

/-- Python `str.replace(".", " ")`. -/
def pyReplaceDot (s : String) : String :=
  String.mk (s.data.map (fun c => if c = '.' then ' ' else c))

/-- Helper for `pyTitle`: the flag records whether the previous
character was alphabetic. -/
def pyTitleGo : Bool → List Char → List Char
  | _, [] => []
  | prevAlpha, c :: cs =>
    if c.isAlpha then
      (if prevAlpha then c.toLower else c.toUpper) :: pyTitleGo true cs
    else c :: pyTitleGo false cs

/-- Python `str.title()` on ASCII text: each alphabetic run starts
uppercase and continues lowercase. -/
def pyTitle (s : String) : String := String.mk (pyTitleGo false s.data)

/-- The admin allow-list (app.py line 159). -/
def admin_emails : List String := ["admin@hoichoi.tv", "sp@hoichoi.tv"]

/-- The login button handler of `authenticate_user` (app.py lines
154-162): both the email and the password fields are read, but the
decision and every session key written depend on the email alone; on an
unauthorized email the session state is left unchanged and an error
banner is shown. -/
def loginAttempt (email password : String) (s : SessionState) : SessionState :=
  if check_email_domain email then
    { authenticated := true
      user_email := some email
      user_name := some (pyTitle (pyReplaceDot (takeBeforeAt email)))
      is_admin := some (admin_emails.contains email) }
  else s

/-- Column labels of `pd.DataFrame(list_of_dicts)`: the union of the
record keys in order of first appearance. -/
def dfColumns (records : List (List (String × JsonVal))) : List String :=
  records.foldl
    (fun cols r =>
      r.foldl (fun cols2 kv => if cols2.contains kv.1 then cols2 else cols2 ++ [kv.1]) cols)
    []

/-- One data row written by `df.to_excel`: the record value under each
column, `none` standing for the NaN a record missing the key yields. -/
def dfRow (cols : List String) (r : List (String × JsonVal)) : List (Option JsonVal) :=
  cols.map (fun c => lookupKey r c)

/-- The Python comparison `v.get("severity") == sev` used by the
summary counts: true only when the value is exactly that string. -/
def isSeverity (v : List (String × JsonVal)) (sev : String) : Bool :=
  match lookupKey v "severity" with
  | some (JsonVal.str s) => s == sev
  | _ => false

/-- `len([v for v in violations if v.get("severity") == sev])`. -/
def countSeverity (violations : List (List (String × JsonVal))) (sev : String) : Nat :=
  (violations.filter (fun v => isSeverity v sev)).length

/-- Cell content of the workbook `generate_snp_report` writes (app.py
lines 299-319): the `Violations` sheet is `pd.DataFrame(violations)`
written with `index=False` (header row of raw dict keys, then one row
per record), and the `Summary` sheet counts records by severity.  The
code configures no column widths, so `widths` is empty; cell styling is
not modelled. -/
structure SnpXlsx where
  violationsHeader : List String
  violationsRows : List (List (Option JsonVal))
  summaryHeader : List String
  summaryRows : List (List JsonVal)
  widths : List (Nat × Nat)

/-- The spreadsheet part of `generate_snp_report`. -/
def generate_snp_xlsx (violations : List (List (String × JsonVal))) : SnpXlsx :=
  { violationsHeader := dfColumns violations
    violationsRows := violations.map (fun v => dfRow (dfColumns violations) v)
    summaryHeader := ["Metric", "Count"]
    summaryRows :=
      [ [JsonVal.str "Total", JsonVal.num (violations.length : Int)]
      , [JsonVal.str "Critical", JsonVal.num (countSeverity violations "critical" : Int)]
      , [JsonVal.str "High", JsonVal.num (countSeverity violations "high" : Int)]
      , [JsonVal.str "Medium", JsonVal.num (countSeverity violations "medium" : Int)]
      , [JsonVal.str "Low", JsonVal.num (countSeverity violations "low" : Int)] ]
    widths := [] }

/-- Rendering of a JSON value inside a Python `f`-string.  Scalars
follow `str()`; container values never occur in the fields the report
interpolates, so their Python `repr` is abbreviated. -/
def jsonToPy : JsonVal → String
  | JsonVal.null => "None"
  | JsonVal.bool b => if b then "True" else "False"
  | JsonVal.num n => toString n
  | JsonVal.str s => s
  | JsonVal.arr _ => "<list>"
  | JsonVal.obj _ => "<dict>"

/-- `f"...v.get(k, d)..."`: the looked-up value rendered as text, or
the default string. -/
def vgetStr (v : List (String × JsonVal)) (k d : String) : String :=
  match lookupKey v k with
  | some x => jsonToPy x
  | none => d

/-- The three lines appended to the report for one violation (app.py
lines 333-336), with the one-based position `i`. -/
def violationPdfBlock (i : Nat) (v : List (String × JsonVal)) : String :=
  "\n" ++ toString i ++ ". " ++ vgetStr v "violationType" "Unknown" ++
    " (Page " ++ vgetStr v "pageNumber" "N/A" ++ ")\n" ++
  "   Text: " ++ pySlice (vgetStr v "violationText" "N/A") 100 ++ "...\n" ++
  "   Action: " ++ vgetStr v "suggestedAction" "N/A" ++ "\n"

/-- The loop of app.py lines 333-336 over the first ten violations. -/
def snpPdfBody (violations : List (List (String × JsonVal))) : String :=
  String.join (((violations.take 10).enum).map (fun p => violationPdfBlock (p.1 + 1) p.2))

/-- Everything of the generated report text after the timestamp: the
summary block and the per-violation blocks, a function of the violation
records alone. -/
def snpPdfDerived (violations : List (List (String × JsonVal))) : String :=
  "\n\nSUMMARY:\nTotal Violations: " ++ toString violations.length ++
  "\nCritical: " ++ toString (countSeverity violations "critical") ++
  "\nHigh: " ++ toString (countSeverity violations "high") ++
  "\n\nVIOLATIONS:\n" ++ snpPdfBody violations

/-- The text payload of `generate_snp_report` (app.py lines 322-336);
`now` is the `datetime.now().strftime(...)` timestamp, the only input
not determined by the violation records. -/
def snp_pdf_content (now : String) (violations : List (List (String × JsonVal))) : String :=
  "STANDARDS & PRACTICES REPORT\nGenerated: " ++ now ++ snpPdfDerived violations

/-- One scene record consumed by `generate_production_report` (typed
after the keys the code indexes directly). -/
structure Scene where
  scene_number : Int
  scene_heading : String
  time_of_day : String
  brief_description : String
  props_in_scene : List String

/-- One entry of `location_breakdown`. -/
structure LocationRec where
  location_name : String
  scenes_in_location : List Scene

/-- The parsed production result dictionary. -/
structure ProductionResults where
  location_breakdown : List LocationRec
  unique_props : List String

/-- One openpyxl worksheet as the code manipulates it: direct cell
assignments (the summary sheet), appended rows (the other sheets), and
the column widths explicitly set.  `generate_production_report` never
touches `column_dimensions`, so `widths` stays empty; fonts are not
modelled. -/
structure PySheet where
  title : String
  cells : List (String × JsonVal)
  rows : List (List JsonVal)
  widths : List (Nat × Nat)

/-- The row appended per scene (app.py lines 368-374). -/
def sceneRow (s : Scene) : List JsonVal :=
  [ JsonVal.num s.scene_number, JsonVal.str s.scene_heading, JsonVal.str s.time_of_day,
    JsonVal.str s.brief_description, JsonVal.str (String.intercalate ", " s.props_in_scene) ]

/-- The nested loop of app.py lines 381-385 collecting, in order and
without repetition, the names of locations with a scene containing the
prop. -/
def propLocations (results : ProductionResults) (prop : String) : List String :=
  results.location_breakdown.foldl
    (fun locs loc =>
      loc.scenes_in_location.foldl
        (fun locs2 scene =>
          if scene.props_in_scene.contains prop && !(locs2.contains loc.location_name) then
            locs2 ++ [loc.location_name]
          else locs2)
        locs)
    []

/-- `generate_production_report` (app.py lines 340-392): a summary
sheet of totals, one sheet per location (title truncated to 30
characters) listing its scenes, and a props sheet mapping each unique
prop to the locations using it. -/
def generate_production_report (results : ProductionResults) : List PySheet :=
  let summarySheet : PySheet :=
    { title := "SUMMARY"
      cells :=
        [ ("A1", JsonVal.str "PRODUCTION BREAKDOWN")
        , ("A3", JsonVal.str "Total Locations:")
        , ("B3", JsonVal.num (results.location_breakdown.length : Int))
        , ("A4", JsonVal.str "Total Scenes:")
        , ("B4", JsonVal.num
            ((results.location_breakdown.map (fun loc => loc.scenes_in_location.length)).sum : Int))
        , ("A5", JsonVal.str "Total Props:")
        , ("B5", JsonVal.num (results.unique_props.length : Int)) ]
      rows := []
      widths := [] }
  let locationSheets : List PySheet :=
    results.location_breakdown.map (fun loc =>
      { title := pySlice loc.location_name 30
        cells := []
        rows :=
          [JsonVal.str "Scene", JsonVal.str "Heading", JsonVal.str "Time",
           JsonVal.str "Description", JsonVal.str "Props"]
          :: loc.scenes_in_location.map sceneRow
        widths := [] })
  let propsSheet : PySheet :=
    { title := "PROPS"
      cells := []
      rows :=
        [JsonVal.str "Prop", JsonVal.str "Locations Used"]
        :: results.unique_props.map (fun p =>
             [JsonVal.str p, JsonVal.str (String.intercalate ", " (propLocations results p))])
      widths := [] }
  [summarySheet] ++ locationSheets ++ [propsSheet]

/-- Width recorded for a column of a sheet, by sheet title; `none`
when the code never set one. -/
def sheetWidth (wb : List PySheet) (title : String) (col : Nat) : Option Nat :=
  match wb.find? (fun sh => sh.title == title) with
  | some sh => (sh.widths.find? (fun p => p.1 == col)).map (fun p => p.2)
  | none => none

/-- Appended rows of the sheet with the given title. -/
def sheetRowsD (wb : List PySheet) (title : String) : List (List JsonVal) :=
  match wb.find? (fun sh => sh.title == title) with
  | some sh => sh.rows
  | none => []

/-- Modelled from the spec: the column-width heuristic the spec
describes, `width = min(max cell text length + 2, 50)`; the code under
`src` sets no widths, so this definition exists only to compare the
spec formula with the generated workbook. -/
def specColumnWidth (rows : List (List JsonVal)) (col : Nat) : Nat :=
  min ((rows.foldl (fun m row => max m (jsonToPy (row.getD col JsonVal.null)).length) 0) + 2) 50

/-- The example violation of the spec (section 8), with the elided
fields filled in concretely. -/
def exampleViolation : List (String × JsonVal) :=
  [ ("violationType", JsonVal.str "language")
  , ("severity", JsonVal.str "high")
  , ("pageNumber", JsonVal.num 3)
  , ("violationText", JsonVal.str "strong language excerpt")
  , ("explanation", JsonVal.str "offensive wording")
  , ("suggestedAction", JsonVal.str "rephrase the line") ]

/-- A small concrete production result, matching the shape the
production prompt requests. -/
def exampleProduction : ProductionResults :=
  { location_breakdown :=
      [ { location_name := "Office"
          scenes_in_location :=
            [ { scene_number := 1
                scene_heading := "INT. OFFICE - DAY"
                time_of_day := "DAY"
                brief_description := "Character enters office"
                props_in_scene := ["desk", "chair"] } ] } ]
    unique_props := ["desk", "chair"] }

/-- Concrete backends used by the extraction witnesses. -/
def exampleBackends : FileBackends :=
  { pdfPages := Except.ok ["page one text"], docxParas := Except.ok ["paragraph one"] }

/-- A bare JSON object reply. -/
def bareReplyExample : String := "\x7b\"violations\": []\x7d"

/-- The same object wrapped in a markdown ```json fence. -/
def fencedReplyExample : String := "```json\n\x7b\"violations\": []\x7d\n```"

/-- Session state before any login key is written. -/
def initialSession : SessionState :=
  { authenticated := false, user_email := none, user_name := none, is_admin := none }

/-- Claim C1, counterexample: the bare object reply parses to its
structure, but the same object wrapped in a ```json fence yields the
error dictionary — the two replies do not parse to identical
structures, because the code has no fenced-block fallback. -/
theorem c1_fence_counterexample :
    parse_llm_reply bareReplyExample = JsonVal.obj [("violations", JsonVal.arr [])]
    ∧ hasErrorKey (parse_llm_reply fencedReplyExample) = true
    ∧ hasErrorKey (parse_llm_reply bareReplyExample) = false
    ∧ parse_llm_reply fencedReplyExample ≠ parse_llm_reply bareReplyExample :=
  ⟨rfl, rfl, rfl, fun h => absurd (congrArg hasErrorKey h) (by decide)⟩

/-- Claim C1 (amended): the response parser performs only a direct
JSON decode of the reply; a successful decode is returned unchanged,
any failure becomes the error dictionary, and in particular the bare
example object parses to its structure while the fenced form yields
the error dictionary. -/
theorem c1_direct_decode_only (reply : String) :
    (∀ v, jsonDecode reply = some v → parse_llm_reply reply = v)
    ∧ (jsonDecode reply = none → parse_llm_reply reply = JsonVal.obj json_error_object)
    ∧ parse_llm_reply bareReplyExample = JsonVal.obj [("violations", JsonVal.arr [])]
    ∧ parse_llm_reply fencedReplyExample = JsonVal.obj json_error_object := by
  refine ⟨fun v h => ?_, fun h => ?_, rfl, rfl⟩ <;> simp [parse_llm_reply, h]

/-- Claim C1, witness for the amended theorem at the bare example. -/
theorem c1_direct_decode_only_witness :
    parse_llm_reply bareReplyExample = JsonVal.obj [("violations", JsonVal.arr [])] :=
  (c1_direct_decode_only bareReplyExample).1 (JsonVal.obj [("violations", JsonVal.arr [])]) rfl

/-- Claim C2: whenever the reply fails to decode as JSON the analysis
functions return the error dictionary (never an exception — the
function is total), the `error` key is present on it, and the results
tab branches to the error banner exactly on that key: a decoded object
without the key is rendered as results. -/
theorem c2_error_key_signal (reply : String) :
    (jsonDecode reply = none →
       parse_llm_reply reply = JsonVal.obj json_error_object
       ∧ hasErrorKey (parse_llm_reply reply) = true
       ∧ tab_standards_view json_error_object
           = StandardsView.errorView (JsonVal.str json_error_message))
    ∧ (∀ kvs, jsonDecode reply = some (JsonVal.obj kvs) →
         parse_llm_reply reply = JsonVal.obj kvs
         ∧ (hasErrorKey (JsonVal.obj kvs) = false →
              tab_standards_view kvs
                = StandardsView.resultsView ((lookupKey kvs "violations").getD (JsonVal.arr [])))) := by
  constructor
  · intro h
    exact ⟨by simp [parse_llm_reply, h], by simp [parse_llm_reply, h]; rfl, rfl⟩
  · intro kvs h
    refine ⟨by simp [parse_llm_reply, h], fun hf => ?_⟩
    cases hl : lookupKey kvs "error" with
    | none => simp [tab_standards_view, hl]
    | some e => rw [hasErrorKey, hl] at hf; exact Bool.noConfusion hf

/-- Claim C2, witness at the literal reply `not json`. -/
theorem c2_error_key_signal_witness :
    parse_llm_reply "not json" = JsonVal.obj json_error_object
    ∧ hasErrorKey (parse_llm_reply "not json") = true := by
  have h := (c2_error_key_signal "not json").1 rfl
  exact ⟨h.1, h.2.1⟩

/-- Claim C3, counterexample: for the example violation list the
header row written by `df.to_excel` is the raw dict keys, not the
renamed labels the claim states. -/
theorem c3_header_counterexample :
    (generate_snp_xlsx [exampleViolation]).violationsHeader
      ≠ ["Type", "Severity", "Page", "Violation Text", "Explanation", "Suggested Action"] := by
  decide

/-- Claim C3 (amended): for the example violation list the header row
is the raw keys `violationType, severity, pageNumber, violationText,
explanation, suggestedAction` and row 2 holds the corresponding values
`language, high, 3, ...`. -/
theorem c3_raw_keys_header :
    (generate_snp_xlsx [exampleViolation]).violationsHeader
      = ["violationType", "severity", "pageNumber", "violationText", "explanation",
         "suggestedAction"]
    ∧ (generate_snp_xlsx [exampleViolation]).violationsRows
      = [[ some (JsonVal.str "language"), some (JsonVal.str "high"), some (JsonVal.num 3),
           some (JsonVal.str "strong language excerpt"), some (JsonVal.str "offensive wording"),
           some (JsonVal.str "rephrase the line") ]] :=
  ⟨rfl, rfl⟩

/-- Claim C4: each analysis prompt embeds exactly `text[:10000]` — a
string of at most 10000 characters that is an initial segment of the
extracted text — and the prompt depends on nothing beyond those first
10000 characters, so all later text is dropped. -/
theorem c4_prompt_truncation (t u : String) :
    standards_user_prompt t = standardsPromptHead ++ pySlice t 10000 ++ "..."
    ∧ production_user_prompt t = productionPromptHead ++ pySlice t 10000 ++ "..."
    ∧ (pySlice t 10000).length ≤ 10000
    ∧ (∃ rest, t.data = (pySlice t 10000).data ++ rest)
    ∧ (pySlice t 10000 = pySlice u 10000 →
         standards_user_prompt t = standards_user_prompt u
         ∧ production_user_prompt t = production_user_prompt u) := by
  refine ⟨rfl, rfl, ?_, ⟨t.data.drop 10000, (List.take_append_drop 10000 t.data).symm⟩, ?_⟩
  · have h : (pySlice t 10000).length = (t.data.take 10000).length := rfl
    rw [h, List.length_take]
    exact min_le_left _ _
  · intro h
    exact ⟨by simp [standards_user_prompt, h], by simp [production_user_prompt, h]⟩

/-- Claim C4, witness at a concrete script text. -/
theorem c4_prompt_truncation_witness :
    standards_user_prompt "INT. OFFICE - DAY" = standards_user_prompt "INT. OFFICE - DAY"
    ∧ production_user_prompt "INT. OFFICE - DAY" = production_user_prompt "INT. OFFICE - DAY" :=
  (c4_prompt_truncation "INT. OFFICE - DAY" "INT. OFFICE - DAY").2.2.2.2 rfl

/-- Claim C5, counterexample: a `.txt` filename is not decoded; the
extractor raises the unsupported-type `ValueError` for it. -/
theorem c5_txt_counterexample :
    extract_text_from_file exampleBackends "script.txt"
      = Except.error (ExtractErr.unsupported "Unsupported file type: .txt")
    ∧ exceptIsOk (extract_text_from_file exampleBackends "script.txt") = false :=
  ⟨rfl, rfl⟩

/-- Claim C5 (amended): TXT is not among the supported input types of
this variant; for every filename whose lowercased extension is `.txt`
the extractor raises `ValueError("Unsupported file type: .txt")`
regardless of the file bytes. -/
theorem c5_txt_unsupported (b : FileBackends) (fname : String)
    (h : pyLower (splitextExt fname) = ".txt") :
    extract_text_from_file b fname
      = Except.error (ExtractErr.unsupported "Unsupported file type: .txt") := by
  simp [extract_text_from_file, h]

/-- Claim C5, witness for the amended theorem. -/
theorem c5_txt_unsupported_witness :
    extract_text_from_file exampleBackends "notes.txt"
      = Except.error (ExtractErr.unsupported "Unsupported file type: .txt") :=
  c5_txt_unsupported exampleBackends "notes.txt" rfl

/-- Claim C6, counterexample: with empty extracted text the pipeline
does not produce an error outcome; it proceeds to both LLM analysis
calls, whose prompts embed the empty script. -/
theorem c6_empty_text_counterexample :
    tab_upload_process "" "\x7b\x7d" "\x7b\x7d"
      = UploadOutcome.analyzed (standards_user_prompt "") (JsonVal.obj [])
          (production_user_prompt "") (JsonVal.obj [])
    ∧ tab_upload_process "" "\x7b\x7d" "\x7b\x7d" ≠ UploadOutcome.emptyTextError :=
  ⟨rfl, fun h => UploadOutcome.noConfusion h⟩

/-- Claim C6 (amended): the upload pipeline contains no empty-text
check; when extraction yields empty text it silently proceeds to the
two LLM analysis calls instead of reporting an error. -/
theorem c6_no_empty_text_check (replyS replyP : String) :
    tab_upload_process "" replyS replyP
      = UploadOutcome.analyzed (standards_user_prompt "") (parse_llm_reply replyS)
          (production_user_prompt "") (parse_llm_reply replyP)
    ∧ tab_upload_process "" replyS replyP ≠ UploadOutcome.emptyTextError :=
  ⟨rfl, fun h => UploadOutcome.noConfusion h⟩

/-- Claim C7: report generation is deterministic in the input records —
the spreadsheet cell values of both reports are functions of the
records alone, and two runs of the text report differ only in the
interpolated timestamp: each equals the fixed header, the run's
timestamp, and a suffix computed from the violations only. -/
theorem c7_report_determinism (violations : List (List (String × JsonVal)))
    (results : ProductionResults) (t1 t2 : String) :
    snp_pdf_content t1 violations
        = "STANDARDS & PRACTICES REPORT\nGenerated: " ++ t1 ++ snpPdfDerived violations
    ∧ snp_pdf_content t2 violations
        = "STANDARDS & PRACTICES REPORT\nGenerated: " ++ t2 ++ snpPdfDerived violations
    ∧ generate_snp_xlsx violations = generate_snp_xlsx violations
    ∧ generate_production_report results = generate_production_report results :=
  ⟨rfl, rfl, rfl, rfl⟩

/-- Claim C8, counterexample: the generated production workbook sets
no width for the first column of the PROPS sheet, while the width
formula of the claim gives 7 for it. -/
theorem c8_width_counterexample :
    sheetWidth (generate_production_report exampleProduction) "PROPS" 0 = none
    ∧ specColumnWidth (sheetRowsD (generate_production_report exampleProduction) "PROPS") 0 = 7
    ∧ sheetWidth (generate_production_report exampleProduction) "PROPS" 0
        ≠ some (specColumnWidth
            (sheetRowsD (generate_production_report exampleProduction) "PROPS") 0) :=
  ⟨rfl, rfl, fun h => Option.noConfusion h⟩

/-- Claim C8 (amended): neither report generator sets any column
width; every sheet of both workbooks is saved with the library default
widths, and the `min(max cell length + 2, 50)` heuristic appears
nowhere in the code. -/
theorem c8_no_widths_set (violations : List (List (String × JsonVal)))
    (results : ProductionResults) :
    (generate_snp_xlsx violations).widths = []
    ∧ ((generate_production_report results).all (fun sh => sh.widths.isEmpty)) = true := by
  refine ⟨rfl, ?_⟩
  simp [generate_production_report, List.all_append, List.all_map, Function.comp,
    List.all_eq_true]

/-- An appended message is never the original message: the wrapped
decoder error differs from the error it wraps. -/
theorem append_length_ne (a e : String) (ha : a.length ≠ 0) : a ++ e ≠ e := by
  intro h
  have hd : a.data ++ e.data = e.data := congrArg String.data h
  have hlen := congrArg List.length hd
  rw [List.length_append] at hlen
  have h0 : a.data.length = 0 := by omega
  exact ha h0

/-- Claim C9: for every filename whose lowercased extension is not
`.pdf`, `.docx` or `.doc` the extractor raises the documented
unsupported-type `ValueError`, and a decoder exception is re-raised as
a generic wrapped error whose message differs from the original. -/
theorem c9_unsupported_and_wrapped (b : FileBackends) (fname e : String) :
    (pyLower (splitextExt fname) ∉ [".pdf", ".docx", ".doc"] →
       extract_text_from_file b fname
         = Except.error (ExtractErr.unsupported
             ("Unsupported file type: " ++ pyLower (splitextExt fname))))
    ∧ extract_text_from_pdf (Except.error e)
        = Except.error (ExtractErr.wrapped ("Error reading PDF: " ++ e))
    ∧ extract_text_from_docx (Except.error e)
        = Except.error (ExtractErr.wrapped ("Error reading DOCX: " ++ e))
    ∧ ("Error reading PDF: " ++ e) ≠ e
    ∧ ("Error reading DOCX: " ++ e) ≠ e := by
  refine ⟨?_, rfl, rfl, append_length_ne _ _ (by decide), append_length_ne _ _ (by decide)⟩
  intro h
  simp only [List.mem_cons, List.mem_singleton, not_or] at h
  obtain ⟨h1, h2, h3⟩ := h
  simp [extract_text_from_file, h1, h2, h3]

/-- Claim C9, witness at a Final Draft extension and a concrete
decoder failure. -/
theorem c9_unsupported_and_wrapped_witness :
    extract_text_from_file exampleBackends "movie.fdx"
      = Except.error (ExtractErr.unsupported
          ("Unsupported file type: " ++ pyLower (splitextExt "movie.fdx")))
    ∧ extract_text_from_pdf (Except.error "read failure")
        = Except.error (ExtractErr.wrapped ("Error reading PDF: " ++ "read failure")) := by
  have h := c9_unsupported_and_wrapped exampleBackends "movie.fdx" "read failure"
  exact ⟨h.1 (by decide), h.2.1⟩

/-- Claim C10: the login decision and the entire resulting session
state depend only on the email — any two passwords produce identical
states — and every email passing the domain allow-list authenticates.
The password-independence equality also expresses that no function of
the password (in particular no password hash) enters the login flow. -/
theorem c10_login_ignores_password (email p1 p2 : String) (s : SessionState) :
    loginAttempt email p1 s = loginAttempt email p2 s
    ∧ (check_email_domain email = true → (loginAttempt email p1 s).authenticated = true) := by
  refine ⟨rfl, fun h => ?_⟩
  simp [loginAttempt, h]

/-- Claim C10, witness: an allow-listed address authenticates with
identical session state under two different passwords (one empty). -/
theorem c10_login_ignores_password_witness :
    loginAttempt "jane.doe@gmail.com" "hunter2" initialSession
        = loginAttempt "jane.doe@gmail.com" "" initialSession
    ∧ (loginAttempt "jane.doe@gmail.com" "hunter2" initialSession).authenticated = true := by
  have h := c10_login_ignores_password "jane.doe@gmail.com" "hunter2" "" initialSession
  exact ⟨h.1, h.2 rfl⟩
